import Mathlib

/-!
Verification of the LAPD crime-analysis core components against their source
(`crime_analysis.py`).

Two components are embedded:

* the Feature Deriver (`load_and_preprocess_data`, lines 9-32): parses the
  `date_occ` timestamp column and derives `year`, `month_name`, `day_of_week`,
  `hour`;
* the Area Risk Scorer (`area_summary`, lines 174-201): groups incidents by
  `area_name`, aggregates counts/centroids, computes `severity_index`,
  `crime_norm`, `danger_index`, and assigns a tertile `risk_level` via
  `pd.qcut(danger_index, q=3, labels=["Low","Medium","High"])`.

Modelling conventions:

* pandas float64 values are embedded as `ℚ` (exact rationals); the float NaN
  produced by pandas for a missing value, or for the mean of an empty set of
  values, is embedded as `Option.none`, so `lat lon : Option ℚ`;
* a pandas DataFrame of incidents is a `List Incident`;
* exceptions are embedded as `Except`: the scorer returns
  `Except ScorerError _` and the deriver `Except DeriveError _`.
-/

/-- Day-name vocabulary, copied from `DAY_ORDER` in the source (lines 23-26). -/
def DAY_ORDER : List String :=
  ["Monday", "Tuesday", "Wednesday", "Thursday", "Friday", "Saturday", "Sunday"]

/-- Month-name vocabulary, copied from `MONTH_ORDER` in the source (lines 27-30). -/
def MONTH_ORDER : List String :=
  ["January", "February", "March", "April", "May", "June",
   "July", "August", "September", "October", "November", "December"]

/-- A parsed calendar timestamp, the result of `pd.to_datetime` on one value.
`month` is the zero-based month index (pandas month number minus one), `hour`
the 24-hour clock hour; validity of both is carried in the `Fin` types. -/
structure DateTime where
  year : Nat
  month : Fin 12
  day : Nat
  hour : Fin 24
  minute : Nat
  second : Nat
  deriving DecidableEq, Repr

/-- Gregorian leap-year test, as used by the datetime library backing pandas. -/
def isLeapYear (y : Nat) : Bool :=
  (y % 4 == 0 && y % 100 != 0) || (y % 400 == 0)

/-- Number of days in month `m` (1-based) of year `y`. -/
def daysInMonth (y m : Nat) : Nat :=
  if m = 2 then (if isLeapYear y then 29 else 28)
  else if m = 4 ∨ m = 6 ∨ m = 9 ∨ m = 11 then 30
  else 31

/-- Split a character list at every occurrence of the separator `c`
(the model of `str.split` used by the timestamp parser). -/
def splitOnChar (c : Char) : List Char → List (List Char)
  | [] => [[]]
  | x :: xs =>
    match splitOnChar c xs with
    | [] => if x = c then [[], []] else [[x]]
    | h :: t => if x = c then [] :: h :: t else (x :: h) :: t

/-- Read a nonempty all-digit character list as a natural number. -/
def digitsToNat : List Char → Option Nat
  | [] => none
  | l =>
    if l.all (·.isDigit) then
      some (l.foldl (fun acc c => 10 * acc + (c.toNat - 48)) 0)
    else none

/-- Model of `pd.to_datetime` applied to one `date_occ` string, restricted to
the ISO format `YYYY-MM-DD HH:MM:SS`; strings outside that format, calendar-
invalid dates, and years outside the `datetime64[ns]` representable range
(1678-2261) are unparsable and yield `none`, as `pd.to_datetime` raises on
them. -/
def parseDateTime (s : String) : Option DateTime :=
  match splitOnChar ' ' s.data with
  | [datePart, timePart] =>
    match splitOnChar '-' datePart, splitOnChar ':' timePart with
    | [ys, ms, ds], [hs, mins, secs] =>
      match digitsToNat ys, digitsToNat ms, digitsToNat ds,
            digitsToNat hs, digitsToNat mins, digitsToNat secs with
      | some y, some mo, some d, some hh, some mi, some ss =>
        if hy : 1678 ≤ y ∧ y ≤ 2261 then
          if hm : 1 ≤ mo ∧ mo ≤ 12 then
            if hd : 1 ≤ d ∧ d ≤ daysInMonth y mo then
              if hh24 : hh ≤ 23 then
                if mi ≤ 59 ∧ ss ≤ 59 then
                  some { year := y, month := ⟨mo - 1, by omega⟩, day := d,
                         hour := ⟨hh, by omega⟩, minute := mi, second := ss }
                else none
              else none
            else none
          else none
        else none
      | _, _, _, _, _, _ => none
    | _, _ => none
  | _ => none

/-- The English month name pandas `Series.dt.month_name()` assigns to the
zero-based month index `i` (locale-independent default). -/
def monthNameOf (i : Fin 12) : String := MONTH_ORDER.getD i.val ""

/-- The English day name pandas `Series.dt.day_name()` assigns to the
Monday-based weekday index `i` (locale-independent default). -/
def dayNameOf (i : Fin 7) : String := DAY_ORDER.getD i.val ""

/-- Monday-based weekday index of a Gregorian date, via Zeller's congruence
(the day-of-week value underlying `Series.dt.day_name()`). -/
def zellerDayIdx (year month day : Nat) : Fin 7 :=
  let m := if month ≤ 2 then month + 12 else month
  let y := if month ≤ 2 then year - 1 else year
  let K := y % 100
  let J := y / 100
  let h := (day + 13 * (m + 1) / 5 + K + K / 4 + J / 4 + 5 * J) % 7
  ⟨(h + 5) % 7, by omega⟩

/-- One raw incident row of the input CSV; only the columns the two core
components read are modelled.  `part_1_2` is the CSV column `part_1-2` (the
severity classification; value `1` means a Part 1 offense); `lat`/`lon` use
`none` for a missing (NaN) coordinate. -/
structure Incident where
  dr_no : Nat
  date_occ : String
  area_name : String
  part_1_2 : Int
  lat : Option ℚ
  lon : Option ℚ
  deriving DecidableEq, Repr

/-- An incident row after the Feature Deriver has added the four derived
columns (source lines 17-20). -/
structure DerivedIncident extends Incident where
  year : Nat
  month_name : String
  day_of_week : String
  hour : Nat
  deriving DecidableEq, Repr

/-- Error raised by the Feature Deriver: `pd.to_datetime` fails on the given
unparsable `date_occ` string, aborting the whole batch. -/
inductive DeriveError where
  | dataFormatError : String → DeriveError
  deriving DecidableEq, Repr

/-- Derive the four calendar columns for one row from its parsed timestamp
(source lines 17-20); all other columns are carried over unchanged. -/
def deriveOne (r : Incident) (dt : DateTime) : DerivedIncident :=
  { toIncident := r
    year := dt.year
    month_name := monthNameOf dt.month
    day_of_week := dayNameOf (zellerDayIdx dt.year (dt.month.val + 1) dt.day)
    hour := dt.hour.val }

/-- The Feature Deriver (source lines 9-32): convert the `date_occ` column
with `pd.to_datetime` — which raises on the first unparsable value, so the
whole batch fails with no partial result — then extract `year`, `month_name`,
`day_of_week`, `hour` for every row.  The source also returns the constant
lists `DAY_ORDER` and `MONTH_ORDER`, modelled here as the standalone
definitions above. -/
def load_and_preprocess_data : List Incident → Except DeriveError (List DerivedIncident)
  | [] => .ok []
  | r :: rest =>
    match parseDateTime r.date_occ with
    | none => .error (.dataFormatError r.date_occ)
    | some dt =>
      match load_and_preprocess_data rest with
      | .error e => .error e
      | .ok ds => .ok (deriveOne r dt :: ds)

/-- Pandas mean over the non-missing values of a coordinate column within one
group: NaN values were dropped beforehand (here by `filterMap`), and the mean
of zero remaining values is the float NaN, modelled as `none`. -/
def pandasMean (xs : List ℚ) : Option ℚ :=
  match xs with
  | [] => none
  | _ :: _ => some (xs.sum / (xs.length : ℚ))

/-- One row of the grouped aggregation
`crime_lapd.groupby('area_name').agg(...)` (source lines 174-183). -/
structure AreaAgg where
  area_name : String
  total_crimes : Nat
  part1_crimes : Nat
  lat : Option ℚ
  lon : Option ℚ
  deriving DecidableEq, Repr

/-- Aggregate the group of incidents whose `area_name` equals `a` (source
lines 177-182): `total_crimes` counts the rows (`('dr_no', 'count')`; the
`dr_no` id column is never missing), `part1_crimes` counts rows with
`part_1-2 == 1`, and `lat`/`lon` are the pandas means of the group's
coordinates, which skip missing (NaN) entries. -/
def aggArea (rows : List Incident) (a : String) : AreaAgg :=
  let g := rows.filter (fun r => r.area_name = a)
  { area_name := a
    total_crimes := g.length
    part1_crimes := (g.filter (fun r => r.part_1_2 = 1)).length
    lat := pandasMean (g.filterMap (·.lat))
    lon := pandasMean (g.filterMap (·.lon)) }

/-- Maximum of a list of naturals (`Series.max()` over the `total_crimes`
column; every group has at least one row, so 0 is below every entry). -/
def natMax (l : List Nat) : Nat := l.foldr max 0

/-- An `AreaSummary` row before the `risk_level` column is attached: the
aggregates plus `severity_index`, `crime_norm` and `danger_index`
(source lines 185-195). -/
structure PreSummary where
  area_name : String
  total_crimes : Nat
  part1_crimes : Nat
  lat : Option ℚ
  lon : Option ℚ
  severity_index : ℚ
  crime_norm : ℚ
  danger_index : ℚ
  deriving DecidableEq, Repr

/-- The distinct `area_name` values present in the input — the group keys of
`groupby('area_name')`. -/
def areaKeys (rows : List Incident) : List String :=
  (rows.map (·.area_name)).dedup

/-- The maximum of the `total_crimes` column across all groups
(`area_summary['total_crimes'].max()`, source line 189), the global
normalizer of `crime_norm`. -/
def maxTotalCrimes (rows : List Incident) : Nat :=
  natMax ((areaKeys rows).map (fun a => (aggArea rows a).total_crimes))

/-- One summary row before labelling: the aggregates of the group `a`
together with the three derived scores exactly as the source computes them
(lines 185-195): `severity_index = part1_crimes / total_crimes`,
`crime_norm = total_crimes / max(total_crimes)` with the maximum taken over
all groups, `danger_index = 0.5 * crime_norm + 0.5 * severity_index`. -/
def scoreArea (rows : List Incident) (a : String) : PreSummary :=
  let r := aggArea rows a
  let sev : ℚ := (r.part1_crimes : ℚ) / (r.total_crimes : ℚ)
  let cn : ℚ := (r.total_crimes : ℚ) / (maxTotalCrimes rows : ℚ)
  { area_name := r.area_name
    total_crimes := r.total_crimes
    part1_crimes := r.part1_crimes
    lat := r.lat
    lon := r.lon
    severity_index := sev
    crime_norm := cn
    danger_index := 0.5 * cn + 0.5 * sev }

/-- The scored (but not yet labelled) summary table: one row per distinct
`area_name` (source lines 174-195). -/
def preSummaries (rows : List Incident) : List PreSummary :=
  (areaKeys rows).map (scoreArea rows)

/-- The three labels `pd.qcut` attaches (source line 200). -/
inductive RiskLevel where
  | Low
  | Medium
  | High
  deriving DecidableEq, Repr

/-- Position of a label in the order Low < Medium < High. -/
def RiskLevel.rank : RiskLevel → Nat
  | .Low => 0
  | .Medium => 1
  | .High => 2

/-- Errors of the Area Risk Scorer.  `binEdgesNotUnique` is the
`ValueError: Bin edges must be unique` that `pd.qcut` raises when the
computed quantile edges contain duplicates (also what the scorer hits on an
empty input, whose quantiles are all NaN).  `emptyInput` models the
`EmptyInputError` named by the specification; the source defines no such
exception, and the constructor exists only so that statements about it can
be written. -/
inductive ScorerError where
  | binEdgesNotUnique
  | emptyInput
  deriving DecidableEq, Repr

/-- Linear-interpolation quantile of the ascending-sorted value list `s` at
probability `num / den` (numpy's default `linear` method, used by
`pd.qcut`): with `h = (num/den) * (n-1)`, returns
`s[⌊h⌋] + (h - ⌊h⌋) * (s[⌊h⌋+1] - s[⌊h⌋])`. -/
def quantileLin (s : List ℚ) (num den : Nat) : ℚ :=
  let n := s.length
  let i := num * (n - 1) / den
  let γ : ℚ := ((num * (n - 1)) % den : Nat) / (den : ℚ)
  let si := s.getD i 0
  let si1 := s.getD (i + 1) si
  si + γ * (si1 - si)

/-- Assignment of a value to one of the three right-closed quantile bins with
upper edges `e1` (33.3rd percentile) and `e2` (66.7th percentile); `pd.qcut`
widens the lowest edge so the minimum falls into the first bin. -/
def assignLabel (e1 e2 v : ℚ) : RiskLevel :=
  if v ≤ e1 then .Low else if v ≤ e2 then .Medium else .High

/-- Model of `pd.qcut(xs, q=3, labels=["Low","Medium","High"])` (source lines
197-201): compute the 0/33.3/66.7/100-percentile edges of the value
distribution by linear interpolation, raise
`ValueError: Bin edges must be unique` if the four edges are not pairwise
distinct (pandas checks `np.unique` on the edge array; an empty input gives
all-NaN edges and fails the same check), and otherwise label every value by
the bin it falls in — a function of the value alone, so tied values always
receive the same label. -/
def qcut3 (xs : List ℚ) : Except ScorerError (List RiskLevel) :=
  match xs with
  | [] => .error .binEdgesNotUnique
  | _ :: _ =>
    let s := List.insertionSort (· ≤ ·) xs
    let e0 := s.headD 0
    let e3 := s.getLastD 0
    let e1 := quantileLin s 1 3
    let e2 := quantileLin s 2 3
    if ([e0, e1, e2, e3] : List ℚ).Nodup then
      .ok (xs.map (assignLabel e1 e2))
    else .error .binEdgesNotUnique

/-- One row of the final `area_summary` DataFrame (source lines 174-201). -/
structure AreaSummary extends PreSummary where
  risk_level : RiskLevel
  deriving DecidableEq, Repr

/-- The Area Risk Scorer (source lines 174-201): aggregate per area, compute
the three scores, then attach `risk_level` by the 3-quantile cut over the
`danger_index` column.  Any `pd.qcut` failure aborts the whole computation,
so no partial output exists in the error case. -/
def area_summary (rows : List Incident) : Except ScorerError (List AreaSummary) :=
  let ps := preSummaries rows
  match qcut3 (ps.map (·.danger_index)) with
  | .error e => .error e
  | .ok labels =>
      .ok (List.zipWith (fun p l => { toPreSummary := p, risk_level := l }) ps labels)

/-! ## Concrete example data

An eleven-incident input over five areas, used to witness the theorems below
on a fully evaluated run.  Areas A and D have identical profiles (a tie in
`danger_index`), area E attains the maximal `total_crimes`, and area A's only
incident has no coordinates. -/

def r1 : Incident := { dr_no := 1, date_occ := "2023-05-15 13:45:00", area_name := "A", part_1_2 := 1, lat := none, lon := none }

def r2 : Incident := { dr_no := 2, date_occ := "2023-05-16 01:00:00", area_name := "B", part_1_2 := 2, lat := some 3, lon := some 4 }

def r3 : Incident := { dr_no := 3, date_occ := "2023-05-17 02:00:00", area_name := "B", part_1_2 := 2, lat := none, lon := none }

def r4 : Incident := { dr_no := 4, date_occ := "2023-05-18 03:00:00", area_name := "C", part_1_2 := 1, lat := none, lon := none }

def r5 : Incident := { dr_no := 5, date_occ := "2023-05-19 04:00:00", area_name := "C", part_1_2 := 1, lat := none, lon := none }

def r6 : Incident := { dr_no := 6, date_occ := "2023-05-20 05:00:00", area_name := "C", part_1_2 := 1, lat := none, lon := none }

def r7 : Incident := { dr_no := 7, date_occ := "2023-05-21 06:00:00", area_name := "D", part_1_2 := 1, lat := none, lon := none }

def r8 : Incident := { dr_no := 8, date_occ := "2023-05-22 07:00:00", area_name := "E", part_1_2 := 1, lat := none, lon := none }

def r9 : Incident := { dr_no := 9, date_occ := "2023-05-23 08:00:00", area_name := "E", part_1_2 := 1, lat := none, lon := none }

def r10 : Incident := { dr_no := 10, date_occ := "2023-05-24 09:00:00", area_name := "E", part_1_2 := 2, lat := none, lon := none }

def r11 : Incident := { dr_no := 11, date_occ := "2023-05-25 10:00:00", area_name := "E", part_1_2 := 2, lat := none, lon := none }

def exampleRows : List Incident := [r1, r2, r3, r4, r5, r6, r7, r8, r9, r10, r11]

def pA : PreSummary := ⟨"A", 1, 1, none, none, 1, 1/4, 5/8⟩

def pB : PreSummary := ⟨"B", 2, 0, some 3, some 4, 0, 1/2, 1/4⟩

def pC : PreSummary := ⟨"C", 3, 3, none, none, 1, 3/4, 7/8⟩

def pD : PreSummary := ⟨"D", 1, 1, none, none, 1, 1/4, 5/8⟩

def pE : PreSummary := ⟨"E", 4, 2, none, none, 1/2, 1, 3/4⟩

def sA : AreaSummary := ⟨pA, .Low⟩

def sB : AreaSummary := ⟨pB, .Low⟩

def sC : AreaSummary := ⟨pC, .High⟩

def sD : AreaSummary := ⟨pD, .Low⟩

def sE : AreaSummary := ⟨pE, .High⟩

def exampleOut : List AreaSummary := [sA, sB, sC, sD, sE]

/-- A row whose `date_occ` cannot be parsed by `pd.to_datetime`. -/
def badRow : Incident := { dr_no := 99, date_occ := "not a timestamp", area_name := "A", part_1_2 := 1, lat := none, lon := none }

/-- A row with a parseable timestamp (2024-01-01 was a Monday). -/
def goodRow : Incident := { dr_no := 12, date_occ := "2024-01-01 07:30:00", area_name := "A", part_1_2 := 1, lat := none, lon := none }

def goodOut : DerivedIncident := { toIncident := goodRow, year := 2024, month_name := "January", day_of_week := "Monday", hour := 7 }

/-! ## Helper lemmas -/

lemma le_natMax {l : List Nat} {x : Nat} (hx : x ∈ l) : x ≤ natMax l := by
  induction l with
  | nil => cases hx
  | cons a t ih =>
    have hmax : natMax (a :: t) = max a (natMax t) := rfl
    rcases List.mem_cons.mp hx with rfl | hxt
    · rw [hmax]; exact le_max_left _ _
    · rw [hmax]; exact le_trans (ih hxt) (le_max_right _ _)

lemma natMax_mem {l : List Nat} (h : l ≠ []) : natMax l ∈ l := by
  induction l with
  | nil => exact absurd rfl h
  | cons a t ih =>
    have hmax : natMax (a :: t) = max a (natMax t) := rfl
    rcases eq_or_ne t [] with rfl | ht
    · simp [natMax]
    · rw [hmax]
      rcases max_choice a (natMax t) with hm | hm
      · rw [hm]; exact List.mem_cons_self a t
      · rw [hm]; exact List.mem_cons_of_mem a (ih ht)

lemma zipWith_mk_map (g : PreSummary → RiskLevel) :
    ∀ ps : List PreSummary,
      List.zipWith (fun p l => ({ toPreSummary := p, risk_level := l } : AreaSummary))
          ps (ps.map g)
        = ps.map (fun p => { toPreSummary := p, risk_level := g p })
  | [] => rfl
  | p :: t => by
    simp only [List.map_cons, List.zipWith_cons_cons, zipWith_mk_map g t]

lemma qcut3_ok {xs : List ℚ} {ls : List RiskLevel} (h : qcut3 xs = .ok ls) :
    ∃ e1 e2, ls = xs.map (assignLabel e1 e2) := by
  match xs with
  | [] => exact absurd h (by simp [qcut3])
  | x :: rest =>
    simp only [qcut3] at h
    split at h
    · exact ⟨_, _, (Except.ok.inj h).symm⟩
    · cases h

/-- Structure of every successful scorer run: the output is the scored table
with each row labelled by a single bin-assignment function of its own
`danger_index`. -/
lemma area_summary_ok {rows : List Incident} {out : List AreaSummary}
    (h : area_summary rows = .ok out) :
    ∃ e1 e2, out = (preSummaries rows).map
      (fun p => { toPreSummary := p, risk_level := assignLabel e1 e2 p.danger_index }) := by
  simp only [area_summary] at h
  rcases hq : qcut3 ((preSummaries rows).map (·.danger_index)) with e | labels
  · rw [hq] at h; cases h
  · rw [hq] at h
    obtain ⟨e1, e2, hl⟩ := qcut3_ok hq
    refine ⟨e1, e2, ?_⟩
    have hout := (Except.ok.inj h).symm
    rw [hout, hl, List.map_map, zipWith_mk_map]
    rfl

lemma mem_area_summary {rows : List Incident} {out : List AreaSummary} {s : AreaSummary}
    (h : area_summary rows = .ok out) (hs : s ∈ out) :
    ∃ a ∈ areaKeys rows, ∃ e1 e2,
      s = { toPreSummary := scoreArea rows a,
            risk_level := assignLabel e1 e2 (scoreArea rows a).danger_index } := by
  obtain ⟨e1, e2, rfl⟩ := area_summary_ok h
  rw [preSummaries, List.map_map] at hs
  obtain ⟨a, ha, rfl⟩ := List.mem_map.mp hs
  exact ⟨a, ha, e1, e2, rfl⟩

lemma aggArea_total_pos {rows : List Incident} {a : String} (ha : a ∈ areaKeys rows) :
    1 ≤ (aggArea rows a).total_crimes := by
  obtain ⟨r, hr, hra⟩ := List.mem_map.mp ((List.mem_dedup).mp ha)
  have : r ∈ rows.filter (fun r => r.area_name = a) :=
    List.mem_filter.mpr ⟨hr, by simp [hra]⟩
  simpa [aggArea] using List.length_pos_of_mem this

lemma part1_le_total (rows : List Incident) (a : String) :
    (aggArea rows a).part1_crimes ≤ (aggArea rows a).total_crimes := by
  simpa [aggArea] using
    List.length_filter_le (fun r => r.part_1_2 = 1) (rows.filter (fun r => r.area_name = a))

lemma aggArea_total_le_max {rows : List Incident} {a : String} (ha : a ∈ areaKeys rows) :
    (aggArea rows a).total_crimes ≤ maxTotalCrimes rows :=
  le_natMax (List.mem_map.mpr ⟨a, ha, rfl⟩)

lemma severity_index_bounds {rows : List Incident} {a : String} (ha : a ∈ areaKeys rows) :
    0 ≤ (scoreArea rows a).severity_index ∧ (scoreArea rows a).severity_index ≤ 1 := by
  have h1 : 1 ≤ (aggArea rows a).total_crimes := aggArea_total_pos ha
  have h2 := part1_le_total rows a
  have ht : (0 : ℚ) < ((aggArea rows a).total_crimes : ℚ) := by exact_mod_cast h1
  constructor
  · simp only [scoreArea]
    positivity
  · simp only [scoreArea]
    rw [div_le_one ht]
    exact_mod_cast h2

lemma crime_norm_bounds {rows : List Incident} {a : String} (ha : a ∈ areaKeys rows) :
    0 ≤ (scoreArea rows a).crime_norm ∧ (scoreArea rows a).crime_norm ≤ 1 := by
  have h1 : 1 ≤ (aggArea rows a).total_crimes := aggArea_total_pos ha
  have h2 : (aggArea rows a).total_crimes ≤ maxTotalCrimes rows := aggArea_total_le_max ha
  have hM : (0 : ℚ) < (maxTotalCrimes rows : ℚ) := by
    exact_mod_cast lt_of_lt_of_le (lt_of_lt_of_le Nat.zero_lt_one h1) h2
  constructor
  · simp only [scoreArea]
    positivity
  · simp only [scoreArea]
    rw [div_le_one hM]
    exact_mod_cast h2

lemma assignLabel_rank_mono {e1 e2 v w : ℚ} (hvw : v ≤ w) :
    (assignLabel e1 e2 v).rank ≤ (assignLabel e1 e2 w).rank := by
  unfold assignLabel
  split_ifs <;> simp [RiskLevel.rank] <;> linarith

/-! ## Claim theorems -/

/-- Claim C1: for every area in a successful scorer output, `danger_index` equals
exactly `0.5 * crime_norm + 0.5 * severity_index` (the configured 0.5/0.5
weights of source lines 192-195), and this value lies in `[0, 1]`. -/
theorem danger_index_blend_and_bounded (rows : List Incident) (out : List AreaSummary)
    (h : area_summary rows = .ok out) :
    ∀ s ∈ out, s.danger_index = 0.5 * s.crime_norm + 0.5 * s.severity_index ∧
      0 ≤ s.danger_index ∧ s.danger_index ≤ 1 := by
  intro s hs
  obtain ⟨a, ha, e1, e2, rfl⟩ := mem_area_summary h hs
  obtain ⟨hs0, hs1⟩ := severity_index_bounds ha
  obtain ⟨hc0, hc1⟩ := crime_norm_bounds ha
  show (scoreArea rows a).danger_index
        = 0.5 * (scoreArea rows a).crime_norm + 0.5 * (scoreArea rows a).severity_index ∧
      0 ≤ (scoreArea rows a).danger_index ∧ (scoreArea rows a).danger_index ≤ 1
  have hd : (scoreArea rows a).danger_index
      = 0.5 * (scoreArea rows a).crime_norm + 0.5 * (scoreArea rows a).severity_index := rfl
  refine ⟨hd, ?_, ?_⟩
  · rw [hd]; linarith
  · rw [hd]; linarith

/-- Claim C2: in every successful scorer run on a non-empty input, each area has
`severity_index ∈ [0,1]` and `crime_norm ∈ [0,1]`, `crime_norm` is
`total_crimes` divided by the maximal `total_crimes` over all areas, and the
area attaining that maximum has `crime_norm` exactly 1. -/
theorem crime_norm_severity_bounds_and_max_one (rows : List Incident)
    (out : List AreaSummary) (hne : rows ≠ []) (h : area_summary rows = .ok out) :
    (∀ s ∈ out,
        0 ≤ s.severity_index ∧ s.severity_index ≤ 1 ∧
        0 ≤ s.crime_norm ∧ s.crime_norm ≤ 1 ∧
        s.crime_norm = (s.total_crimes : ℚ) / (natMax (out.map (·.total_crimes)) : ℚ)) ∧
    ∃ s ∈ out, s.crime_norm = 1 := by
  have hmax : natMax (out.map (·.total_crimes)) = maxTotalCrimes rows := by
    obtain ⟨e1, e2, ho⟩ := area_summary_ok h
    rw [ho, preSummaries, List.map_map, List.map_map]
    rfl
  constructor
  · intro s hs
    obtain ⟨a, ha, e1, e2, rfl⟩ := mem_area_summary h hs
    obtain ⟨hs0, hs1⟩ := severity_index_bounds ha
    obtain ⟨hc0, hc1⟩ := crime_norm_bounds ha
    refine ⟨hs0, hs1, hc0, hc1, ?_⟩
    rw [hmax]
    rfl
  · have hkeys : areaKeys rows ≠ [] := by
      intro hk
      exact hne (by simpa using (List.dedup_eq_nil _).mp hk)
    have hlist : (areaKeys rows).map (fun a => (aggArea rows a).total_crimes) ≠ [] := by
      simpa using hkeys
    obtain ⟨a, ha, hT⟩ := List.mem_map.mp (natMax_mem hlist)
    obtain ⟨e1, e2, ho⟩ := area_summary_ok h
    refine ⟨{ toPreSummary := scoreArea rows a,
              risk_level := assignLabel e1 e2 (scoreArea rows a).danger_index }, ?_, ?_⟩
    · rw [ho, preSummaries, List.map_map]
      exact List.mem_map.mpr ⟨a, ha, rfl⟩
    · have h1 : 1 ≤ (aggArea rows a).total_crimes := aggArea_total_pos ha
      show ((aggArea rows a).total_crimes : ℚ) / (maxTotalCrimes rows : ℚ) = 1
      rw [show maxTotalCrimes rows = (aggArea rows a).total_crimes from hT.symm]
      exact div_self (by exact_mod_cast Nat.one_le_iff_ne_zero.mp h1)

/-- Claim C3: two areas of one successful scorer run with identical `danger_index`
always receive identical `risk_level` — the qcut bin is a function of the
value alone. -/
theorem equal_danger_equal_risk (rows : List Incident) (out : List AreaSummary)
    (h : area_summary rows = .ok out) :
    ∀ s1 ∈ out, ∀ s2 ∈ out,
      s1.danger_index = s2.danger_index → s1.risk_level = s2.risk_level := by
  intro s1 h1 s2 h2 heq
  obtain ⟨e1, e2, rfl⟩ := area_summary_ok h
  obtain ⟨p1, hp1, rfl⟩ := List.mem_map.mp h1
  obtain ⟨p2, hp2, rfl⟩ := List.mem_map.mp h2
  have hd : p1.danger_index = p2.danger_index := heq
  show assignLabel e1 e2 p1.danger_index = assignLabel e1 e2 p2.danger_index
  rw [hd]

/-- Claim C4: tertile labelling is monotone — within one successful scorer run, an
area with strictly smaller `danger_index` never receives a strictly higher
label in the order Low < Medium < High. -/
theorem risk_level_monotone_in_danger (rows : List Incident) (out : List AreaSummary)
    (h : area_summary rows = .ok out) :
    ∀ s1 ∈ out, ∀ s2 ∈ out,
      s1.danger_index < s2.danger_index → s1.risk_level.rank ≤ s2.risk_level.rank := by
  intro s1 h1 s2 h2 hlt
  obtain ⟨e1, e2, rfl⟩ := area_summary_ok h
  obtain ⟨p1, hp1, rfl⟩ := List.mem_map.mp h1
  obtain ⟨p2, hp2, rfl⟩ := List.mem_map.mp h2
  have hd : p1.danger_index < p2.danger_index := hlt
  show (assignLabel e1 e2 p1.danger_index).rank ≤ (assignLabel e1 e2 p2.danger_index).rank
  exact assignLabel_rank_mono hd.le

/-- Claim C8: every successful scorer output has exactly one summary per distinct
`area_name` of the input — the output keys are exactly the distinct input
areas, without duplicates — and every summary covers at least one incident,
so no zero-incident area appears. -/
theorem one_summary_per_area (rows : List Incident) (out : List AreaSummary)
    (h : area_summary rows = .ok out) :
    (out.map (·.area_name)).Nodup ∧
    (∀ a, a ∈ out.map (·.area_name) ↔ a ∈ rows.map (·.area_name)) ∧
    ∀ s ∈ out, 1 ≤ s.total_crimes := by
  have hmap : out.map (·.area_name) = areaKeys rows := by
    obtain ⟨e1, e2, ho⟩ := area_summary_ok h
    rw [ho, preSummaries, List.map_map, List.map_map]
    exact List.map_id' _
  refine ⟨?_, ?_, ?_⟩
  · rw [hmap]; exact List.nodup_dedup _
  · intro a; rw [hmap]; exact List.mem_dedup
  · intro s hs
    obtain ⟨a, ha, e1, e2, rfl⟩ := mem_area_summary h hs
    exact aggArea_total_pos ha

lemma load_error_of_unparsable :
    ∀ rows : List Incident, (∃ r ∈ rows, parseDateTime r.date_occ = none) →
      ∃ s, load_and_preprocess_data rows = .error (.dataFormatError s)
  | [], h => absurd h (by simp)
  | r :: rest, h => by
    rcases hp : parseDateTime r.date_occ with _ | dt
    · exact ⟨r.date_occ, by simp [load_and_preprocess_data, hp]⟩
    · obtain ⟨r0, hr0, hp0⟩ := h
      rcases List.mem_cons.mp hr0 with rfl | hmem
      · rw [hp] at hp0; cases hp0
      · obtain ⟨s, hs⟩ := load_error_of_unparsable rest ⟨r0, hmem, hp0⟩
        exact ⟨s, by simp [load_and_preprocess_data, hp, hs]⟩

lemma load_ok_members :
    ∀ (rows : List Incident) (out : List DerivedIncident),
      load_and_preprocess_data rows = .ok out →
      ∀ d ∈ out, ∃ r ∈ rows, ∃ dt, parseDateTime r.date_occ = some dt ∧ d = deriveOne r dt
  | [], out, h, d, hd => by
    simp only [load_and_preprocess_data] at h
    rw [← Except.ok.inj h] at hd
    cases hd
  | r :: rest, out, h, d, hd => by
    simp only [load_and_preprocess_data] at h
    rcases hp : parseDateTime r.date_occ with _ | dt
    · rw [hp] at h; cases h
    · rw [hp] at h
      rcases hl : load_and_preprocess_data rest with e | ds
      · rw [hl] at h; cases h
      · rw [hl] at h
        rw [← Except.ok.inj h] at hd
        rcases List.mem_cons.mp hd with rfl | hmem
        · exact ⟨r, List.mem_cons_self r rest, dt, hp, rfl⟩
        · obtain ⟨r1, hr1, dt1, hp1, hd1⟩ := load_ok_members rest ds hl d hmem
          exact ⟨r1, List.mem_cons_of_mem r hr1, dt1, hp1, hd1⟩

/-- Claim C7: an unparsable `occurred_at` anywhere in the batch makes the Feature
Deriver fail the entire batch with the parse error (`pd.to_datetime` raises,
modelled as `DeriveError.dataFormatError`), so no incident of that batch
receives the derived fields. -/
theorem unparsable_timestamp_fails_batch (rows : List Incident)
    (h : ∃ r ∈ rows, parseDateTime r.date_occ = none) :
    (∃ s, load_and_preprocess_data rows = .error (.dataFormatError s)) ∧
    ∀ out, load_and_preprocess_data rows ≠ .ok out := by
  obtain ⟨s, hs⟩ := load_error_of_unparsable rows h
  refine ⟨⟨s, hs⟩, fun out hout => ?_⟩
  rw [hs] at hout
  cases hout

/-- Claim C9: in every successful Feature Deriver run, each row's `month_name` and
`day_of_week` belong to the fixed canonical 12- and 7-element vocabularies,
and all four derived fields are the canonical pure functions of the row's
own parsed `occurred_at` timestamp. -/
theorem derived_names_canonical (rows : List Incident) (out : List DerivedIncident)
    (h : load_and_preprocess_data rows = .ok out) :
    ∀ d ∈ out, d.month_name ∈ MONTH_ORDER ∧ d.day_of_week ∈ DAY_ORDER ∧
      ∃ dt, parseDateTime d.date_occ = some dt ∧
        d.year = dt.year ∧ d.hour = dt.hour.val ∧
        d.month_name = monthNameOf dt.month ∧
        d.day_of_week = dayNameOf (zellerDayIdx dt.year (dt.month.val + 1) dt.day) := by
  intro d hd
  obtain ⟨r, hr, dt, hp, rfl⟩ := load_ok_members rows out h d hd
  have hm : ∀ i : Fin 12, monthNameOf i ∈ MONTH_ORDER := by decide
  have hw : ∀ i : Fin 7, dayNameOf i ∈ DAY_ORDER := by decide
  exact ⟨hm dt.month, hw _, dt, hp, rfl, rfl, rfl, rfl⟩

/-! ## Evaluation of the example run -/

lemma areaKeys_example : areaKeys exampleRows = ["A", "B", "C", "D", "E"] := by decide

lemma aggA : aggArea exampleRows "A" = ⟨"A", 1, 1, none, none⟩ := by decide

lemma aggB : aggArea exampleRows "B" = ⟨"B", 2, 0, some 3, some 4⟩ := by
  have hfil : exampleRows.filter (fun r => r.area_name = "B") = [r2, r3] := by decide
  simp only [aggArea, hfil]
  norm_num [pandasMean, r2, r3, List.filter_cons, List.filterMap_cons, List.filterMap_nil]

lemma aggC : aggArea exampleRows "C" = ⟨"C", 3, 3, none, none⟩ := by decide

lemma aggD : aggArea exampleRows "D" = ⟨"D", 1, 1, none, none⟩ := by decide

lemma aggE : aggArea exampleRows "E" = ⟨"E", 4, 2, none, none⟩ := by decide

lemma maxTotal_example : maxTotalCrimes exampleRows = 4 := by decide

lemma scoreA : scoreArea exampleRows "A" = pA := by
  norm_num [scoreArea, aggA, maxTotal_example, pA]

lemma scoreB : scoreArea exampleRows "B" = pB := by
  norm_num [scoreArea, aggB, maxTotal_example, pB]

lemma scoreC : scoreArea exampleRows "C" = pC := by
  norm_num [scoreArea, aggC, maxTotal_example, pC]

lemma scoreD : scoreArea exampleRows "D" = pD := by
  norm_num [scoreArea, aggD, maxTotal_example, pD]

lemma scoreE : scoreArea exampleRows "E" = pE := by
  norm_num [scoreArea, aggE, maxTotal_example, pE]

lemma pre_example : preSummaries exampleRows = [pA, pB, pC, pD, pE] := by
  rw [preSummaries, areaKeys_example]
  simp only [List.map_cons, List.map_nil, scoreA, scoreB, scoreC, scoreD, scoreE]

lemma dangers_example :
    ([pA, pB, pC, pD, pE].map (·.danger_index) : List ℚ) = [5/8, 1/4, 7/8, 5/8, 3/4] := by
  simp [pA, pB, pC, pD, pE]

lemma qcut_example :
    qcut3 [5/8, 1/4, 7/8, 5/8, (3:ℚ)/4] = .ok [.Low, .Low, .High, .Low, .High] := by
  norm_num [qcut3, quantileLin, assignLabel, List.insertionSort, List.orderedInsert]

lemma area_summary_example : area_summary exampleRows = .ok exampleOut := by
  simp only [area_summary, pre_example]
  rw [show ([pA, pB, pC, pD, pE].map (·.danger_index) : List ℚ)
        = [5/8, 1/4, 7/8, 5/8, 3/4] from dangers_example]
  rw [qcut_example]
  rfl

lemma area_summary_nil : area_summary ([] : List Incident) = .error .binEdgesNotUnique := rfl

lemma scoreArea_lat (rows : List Incident) (a : String) :
    (scoreArea rows a).lat
      = pandasMean ((rows.filter (fun r => r.area_name = a)).filterMap (·.lat)) := rfl

/-! ## Remaining claim theorems and witnesses -/

/-- Claim C5, counterexample: on zero incidents the scorer does not raise the
specification's `EmptyInputError` — no such exception exists in the source;
the failure is `pd.qcut`'s duplicate-bin-edges `ValueError`. -/
theorem empty_input_no_emptyInputError :
    area_summary ([] : List Incident) ≠ .error .emptyInput := by
  rw [area_summary_nil]
  intro hc
  exact ScorerError.noConfusion (Except.error.inj hc)

/-- Claim C5, amended: given zero incidents the scorer fails — the 3-quantile
cut cannot produce distinct bin edges on an empty distribution — and returns
no partial output (no `AreaSummary` records are produced). -/
theorem empty_input_fails_qcut :
    area_summary ([] : List Incident) = .error .binEdgesNotUnique :=
  area_summary_nil

/-- Claim C6, counterexample: in the example run, area `"A"` has exactly one
incident and it lacks coordinates; the scorer still succeeds and the summary
row it returns for `"A"` carries the NaN missing value (`none`) in both
centroid columns — the NaN is produced and passed through, not avoided. -/
theorem all_missing_coords_yield_nan_centroid :
    area_summary exampleRows = .ok exampleOut ∧
    sA ∈ exampleOut ∧ sA.area_name = "A" ∧
    (exampleRows.filter (fun r => r.area_name = "A")).filterMap (·.lat) = [] ∧
    sA.lat = none ∧ sA.lon = none :=
  ⟨area_summary_example, by simp [exampleOut], rfl, by decide, rfl, rfl⟩

/-- Claim C6, amended: every summary row's `total_crimes` and `part1_crimes`
count all incidents of the area, with or without coordinates, while the
centroid is the mean over only the incidents with non-missing coordinates;
when no incident of the area has a coordinate value, the centroid is the NaN
missing value (`none`), silently carried in the output row. -/
theorem centroid_skips_missing_counts_keep_all (rows : List Incident)
    (out : List AreaSummary) (h : area_summary rows = .ok out) :
    ∀ s ∈ out,
      s.total_crimes = (rows.filter (fun r => r.area_name = s.area_name)).length ∧
      s.part1_crimes = ((rows.filter (fun r => r.area_name = s.area_name)).filter
          (fun r => r.part_1_2 = 1)).length ∧
      s.lat = pandasMean ((rows.filter (fun r => r.area_name = s.area_name)).filterMap (·.lat)) ∧
      s.lon = pandasMean ((rows.filter (fun r => r.area_name = s.area_name)).filterMap (·.lon)) ∧
      ((rows.filter (fun r => r.area_name = s.area_name)).filterMap (·.lat) = [] →
        s.lat = none) := by
  intro s hs
  obtain ⟨a, ha, e1, e2, rfl⟩ := mem_area_summary h hs
  refine ⟨rfl, rfl, rfl, rfl, fun hempty => ?_⟩
  have hempty' : (rows.filter (fun r => r.area_name = a)).filterMap (·.lat) = [] := hempty
  show (scoreArea rows a).lat = none
  rw [scoreArea_lat, hempty']
  rfl

/-- Claim C10: a non-empty input on which every area has the same
`danger_index` — here a single-area input — makes the risk-level step fail
with the duplicate-quantile-bin-edges error instead of returning a labelled
summary set. -/
theorem single_area_fails_qcut :
    area_summary [r1] = .error .binEdgesNotUnique := by
  norm_num [area_summary, preSummaries, areaKeys, scoreArea, aggArea, maxTotalCrimes,
    natMax, pandasMean, qcut3, quantileLin, List.insertionSort, List.orderedInsert, r1]

/-- Witness for C1 at the example run, area `"A"`. -/
theorem danger_index_blend_and_bounded_witness :
    sA.danger_index = 0.5 * sA.crime_norm + 0.5 * sA.severity_index ∧
      0 ≤ sA.danger_index ∧ sA.danger_index ≤ 1 :=
  danger_index_blend_and_bounded exampleRows exampleOut area_summary_example sA
    (by simp [exampleOut])

/-- Witness for C2 at the example run (area `"E"` attains `crime_norm = 1`). -/
theorem crime_norm_severity_bounds_and_max_one_witness :
    (∀ s ∈ exampleOut,
        0 ≤ s.severity_index ∧ s.severity_index ≤ 1 ∧
        0 ≤ s.crime_norm ∧ s.crime_norm ≤ 1 ∧
        s.crime_norm = (s.total_crimes : ℚ) / (natMax (exampleOut.map (·.total_crimes)) : ℚ)) ∧
    ∃ s ∈ exampleOut, s.crime_norm = 1 :=
  crime_norm_severity_bounds_and_max_one exampleRows exampleOut
    (by simp [exampleRows]) area_summary_example

/-- Witness for C3 at the example run: areas `"A"` and `"D"` are distinct rows
with equal `danger_index` (5/8) and indeed receive the same label. -/
theorem equal_danger_equal_risk_witness : sA.risk_level = sD.risk_level :=
  equal_danger_equal_risk exampleRows exampleOut area_summary_example sA
    (by simp [exampleOut]) sD (by simp [exampleOut]) rfl

/-- Witness for C4 at the example run: `danger_index` of `"B"` (1/4) is below
that of `"C"` (7/8) and the labels are ordered accordingly. -/
theorem risk_level_monotone_in_danger_witness : sB.risk_level.rank ≤ sC.risk_level.rank :=
  risk_level_monotone_in_danger exampleRows exampleOut area_summary_example sB
    (by simp [exampleOut]) sC (by simp [exampleOut]) (by norm_num [sB, sC, pB, pC])

/-- Witness for the amended C6 at the example run, area `"A"` (no incident of
which carries coordinates). -/
theorem centroid_skips_missing_counts_keep_all_witness :
    sA.total_crimes = (exampleRows.filter (fun r => r.area_name = sA.area_name)).length ∧
    sA.part1_crimes = ((exampleRows.filter (fun r => r.area_name = sA.area_name)).filter
        (fun r => r.part_1_2 = 1)).length ∧
    sA.lat = pandasMean
      ((exampleRows.filter (fun r => r.area_name = sA.area_name)).filterMap (·.lat)) ∧
    sA.lon = pandasMean
      ((exampleRows.filter (fun r => r.area_name = sA.area_name)).filterMap (·.lon)) ∧
    ((exampleRows.filter (fun r => r.area_name = sA.area_name)).filterMap (·.lat) = [] →
      sA.lat = none) :=
  centroid_skips_missing_counts_keep_all exampleRows exampleOut area_summary_example sA
    (by simp [exampleOut])

/-- Witness for C7 on a one-row batch with an unparsable timestamp. -/
theorem unparsable_timestamp_fails_batch_witness :
    (∃ r ∈ [badRow], parseDateTime r.date_occ = none) ∧
    (∃ s, load_and_preprocess_data [badRow] = .error (.dataFormatError s)) ∧
    ∀ out, load_and_preprocess_data [badRow] ≠ .ok out := by
  have hbad : ∃ r ∈ [badRow], parseDateTime r.date_occ = none :=
    ⟨badRow, List.mem_cons_self _ _, by decide⟩
  exact ⟨hbad, unparsable_timestamp_fails_batch [badRow] hbad⟩

/-- Witness for C8 at the example run. -/
theorem one_summary_per_area_witness :
    (exampleOut.map (·.area_name)).Nodup ∧
    (∀ a, a ∈ exampleOut.map (·.area_name) ↔ a ∈ exampleRows.map (·.area_name)) ∧
    ∀ s ∈ exampleOut, 1 ≤ s.total_crimes :=
  one_summary_per_area exampleRows exampleOut area_summary_example

lemma load_good : load_and_preprocess_data [goodRow] = .ok [goodOut] := rfl

/-- Witness for C9 on a one-row batch dated 2024-01-01 07:30:00 (a Monday in
January). -/
theorem derived_names_canonical_witness :
    goodOut.month_name ∈ MONTH_ORDER ∧ goodOut.day_of_week ∈ DAY_ORDER ∧
      ∃ dt, parseDateTime goodOut.date_occ = some dt ∧
        goodOut.year = dt.year ∧ goodOut.hour = dt.hour.val ∧
        goodOut.month_name = monthNameOf dt.month ∧
        goodOut.day_of_week = dayNameOf (zellerDayIdx dt.year (dt.month.val + 1) dt.day) :=
  derived_names_canonical [goodRow] [goodOut] load_good goodOut (by simp)
